import Mathlib

/-!
Verification of the Mini-sql-engine statement-execution pipeline.

This file is a shallow embedding of the Python sources under
`mini_sql_engine/` (ast_nodes.py, models/column.py, models/schema.py,
models/row.py, models/table.py, storage_manager.py, query_processor.py,
execution_engine.py, parser.py).  Python runtime values stored in tables
are modelled by `PyVal`; Python floats are modelled by rationals (the
claims under study never depend on IEEE rounding, decimal rendering of
non-integral floats, or scientific-notation literals, and those corners
are marked where they are approximated).  Fallible Python code is
modelled with `Except`; an exception kind is a `SqlErr` constructor.
Mutation of the table registry is modelled by explicit state passing:
each function returns the updated `Storage` exactly at the points where
the Python code mutates it.
-/

/-- The message of the `NameError` raised when
`ExecutionEngine.execute` / `execute_operation` evaluate their
`except (..., ProcessingError)` clause: `ProcessingError` is never
imported in execution_engine.py (line 12), so handling ANY exception
there raises this NameError instead. -/
def nameErrorMsgExec : String := "name 'ProcessingError' is not defined"

/-- A Python runtime value as stored in rows / predicate literals:
one of int, float, str, bool, None (`ast_nodes.py`, `models/*.py`). -/
inductive PyVal where
  | vInt (n : Int)
  | vFloat (q : ℚ)
  | vStr (s : String)
  | vBool (b : Bool)
  | vNone
deriving DecidableEq, Repr

/-- Numeric view used by Python's cross-type numeric comparisons:
`bool` is an `int` subclass (True = 1, False = 0); ints and floats
compare by value. `None` and `str` are not numeric. -/
def pyNum? : PyVal → Option ℚ
  | PyVal.vInt n => some (n : ℚ)
  | PyVal.vFloat q => some q
  | PyVal.vBool b => some (if b then 1 else 0)
  | _ => none

/-- Python `==` on the stored value kinds: numeric kinds compare by
value, strings by equality, `None == None` is true, and any remaining
mixed-kind pair compares unequal (never raising). -/
def pyEq (a b : PyVal) : Bool :=
  match pyNum? a, pyNum? b with
  | some x, some y => decide (x = y)
  | _, _ =>
    match a, b with
    | PyVal.vStr s, PyVal.vStr t => decide (s = t)
    | PyVal.vNone, PyVal.vNone => true
    | _, _ => false

/-- Python `<`: defined for two numeric operands and for two strings
(lexicographic); any other pair raises `TypeError`, modelled as `none`. -/
def pyLt (a b : PyVal) : Option Bool :=
  match pyNum? a, pyNum? b with
  | some x, some y => some (decide (x < y))
  | _, _ =>
    match a, b with
    | PyVal.vStr s, PyVal.vStr t => some (decide (s < t))
    | _, _ => none

/-- Python `<=` (same domain as `pyLt`). -/
def pyLe (a b : PyVal) : Option Bool :=
  match pyNum? a, pyNum? b with
  | some x, some y => some (decide (x ≤ y))
  | _, _ =>
    match a, b with
    | PyVal.vStr s, PyVal.vStr t => some (decide (s ≤ t))
    | _, _ => none

/-- Python `>` (same domain as `pyLt`). -/
def pyGt (a b : PyVal) : Option Bool := pyLt b a

/-- Python `>=` (same domain as `pyLt`). -/
def pyGe (a b : PyVal) : Option Bool := pyLe b a

/-- Python `value is None` test. -/
def isNone : PyVal → Bool
  | PyVal.vNone => true
  | _ => false

/-- `WhereClause.evaluate` (ast_nodes.py, lines 131-164).  `operator` is
the clause's operator, `value` the clause's literal (`self.value`), and
`row_value` the row's value.  Null handling comes first; afterwards the
comparison runs under a `try` whose `except TypeError` returns `False`,
modelled by `Option.getD false` on the partial orderings. -/
def evaluate (operator : String) (value : PyVal) (row_value : PyVal) : Bool :=
  if row_value = PyVal.vNone ∨ value = PyVal.vNone then
    if operator = "=" then isNone row_value == isNone value
    else if operator = "!=" ∨ operator = "<>" then isNone row_value != isNone value
    else false
  else
    if operator = "=" then pyEq row_value value
    else if operator = "!=" ∨ operator = "<>" then !(pyEq row_value value)
    else if operator = ">" then (pyGt row_value value).getD false
    else if operator = "<" then (pyLt row_value value).getD false
    else if operator = ">=" then (pyGe row_value value).getD false
    else if operator = "<=" then (pyLe row_value value).getD false
    else false

/-- One operand is a string and the other is numeric (int/float/bool):
the "type mismatch" pairs for which Python ordering comparisons raise
`TypeError` while `==`/`!=` still succeed. -/
def mismatched (a b : PyVal) : Bool :=
  match a, b with
  | PyVal.vStr _, PyVal.vInt _ => true
  | PyVal.vStr _, PyVal.vFloat _ => true
  | PyVal.vStr _, PyVal.vBool _ => true
  | PyVal.vInt _, PyVal.vStr _ => true
  | PyVal.vFloat _, PyVal.vStr _ => true
  | PyVal.vBool _, PyVal.vStr _ => true
  | _, _ => false

/-- Column type tags (`models/column.py`: data_type ∈ INT, VARCHAR,
FLOAT, BOOLEAN). -/
inductive DataType where
  | INT
  | VARCHAR
  | FLOAT
  | BOOLEAN
deriving DecidableEq, Repr

/-- The string stored in a column-description dictionary for a type tag. -/
def DataType.toStr : DataType → String
  | DataType.INT => "INT"
  | DataType.VARCHAR => "VARCHAR"
  | DataType.FLOAT => "FLOAT"
  | DataType.BOOLEAN => "BOOLEAN"

/-- Parsing a type-tag string, as `__post_init__`'s membership test in
the valid-type set. -/
def DataType.ofStr? (s : String) : Option DataType :=
  if s = "INT" then some DataType.INT
  else if s = "VARCHAR" then some DataType.VARCHAR
  else if s = "FLOAT" then some DataType.FLOAT
  else if s = "BOOLEAN" then some DataType.BOOLEAN
  else none

/-- `Column` dataclass (models/column.py).  `max_length` stays an
optional Python int (`Option Int`); positivity is enforced by the
constructor `mkColumn` below, mirroring `__post_init__`. -/
structure Column where
  name : String
  data_type : DataType
  nullable : Bool
  max_length : Option Int
deriving DecidableEq, Repr

/-- `Column.__post_init__` (models/column.py, lines 18-31): empty name
and unknown type strings are rejected, a VARCHAR with no `max_length`
gets the default 255, and a non-positive `max_length` is rejected. -/
def mkColumn (name : String) (data_type : String) (nullable : Bool)
    (max_length : Option Int) : Except String Column :=
  if name = "" then Except.error ("Column name cannot be empty")
  else
    match DataType.ofStr? data_type with
    | none => Except.error ("Invalid data type: " ++ data_type)
    | some d =>
      match (if d = DataType.VARCHAR ∧ max_length = none
             then some (255 : Int) else max_length) with
      | some m =>
        if m ≤ 0 then Except.error ("max_length must be positive")
        else Except.ok (Column.mk name d nullable (some m))
      | none => Except.ok (Column.mk name d nullable none)

/-- The invariant `__post_init__` establishes on every constructed
Column: non-empty name, positive `max_length` when present, and a
VARCHAR always carries a `max_length`. -/
def Column.Valid (c : Column) : Prop :=
  c.name ≠ "" ∧ (∀ m, c.max_length = some m → 0 < m) ∧
    (c.data_type = DataType.VARCHAR → c.max_length ≠ none)

/-- Python `x or default` on an optional int (`self.max_length or 255`):
`None` and `0` are falsy. -/
def pyOrDefault (o : Option Int) (d : Int) : Int :=
  match o with
  | none => d
  | some m => if m = 0 then d else m

/-- Python `int(value)` over the stored kinds (used by the INT branch of
`convert_value`): ints unchanged, bools to 0/1, floats truncated toward
zero, strings parsed as decimal integers (sign + digits; exotic forms
such as embedded underscores are not modelled — no claim uses them).
Failure models `ValueError`/`TypeError`. -/
def pyDigits? (l : List Char) : Option Nat :=
  if l ≠ [] ∧ l.all Char.isDigit
  then some (l.foldl (fun a c => a * 10 + (c.toNat - 48)) 0)
  else none

/-- Decimal integer parse for Python `int(str)` (sign then digits). -/
def pyIntParse? (s : String) : Option Int :=
  match s.toList with
  | '-' :: rest => (pyDigits? rest).map (fun n => -(n : Int))
  | '+' :: rest => (pyDigits? rest).map (fun n => (n : Int))
  | l => (pyDigits? l).map (fun n => (n : Int))

def pyToInt : PyVal → Except String Int
  | PyVal.vInt n => Except.ok n
  | PyVal.vBool b => Except.ok (if b then 1 else 0)
  | PyVal.vFloat q => Except.ok (q.num / (q.den : Int))
  | PyVal.vStr s =>
    match pyIntParse? s with
    | some n => Except.ok n
    | none => Except.error ("invalid literal for int() with base 10: " ++ s)
  | PyVal.vNone => Except.error ("int() argument must not be None")

/-- Python `float(value)` over the stored kinds (FLOAT branch of
`convert_value`).  String parsing covers the plain decimal forms
(sign, digits, optional point); scientific notation is not modelled
(no claim depends on it). -/
def pyFloatOfParts (ip fp : List Char) : ℚ :=
  (ip.foldl (fun a c => a * 10 + ((c.toNat : Int) - 48)) 0 : Int) +
    (fp.foldl (fun a c => a * 10 + ((c.toNat : Int) - 48)) 0 : Int) /
      ((10 : ℚ) ^ fp.length)

def pyFloatParseBody? (l : List Char) : Option ℚ :=
  match l.splitOn '.' with
  | [ip] => if ip ≠ [] ∧ ip.all Char.isDigit then some (pyFloatOfParts ip []) else none
  | [ip, fp] =>
    if (ip ≠ [] ∨ fp ≠ []) ∧ ip.all Char.isDigit ∧ fp.all Char.isDigit
    then some (pyFloatOfParts ip fp) else none
  | _ => none

def pyFloatParse? (s : String) : Option ℚ :=
  match s.toList with
  | '-' :: rest => (pyFloatParseBody? rest).map (fun q => -q)
  | '+' :: rest => pyFloatParseBody? rest
  | l => pyFloatParseBody? l

def pyToFloat : PyVal → Except String ℚ
  | PyVal.vInt n => Except.ok (n : ℚ)
  | PyVal.vBool b => Except.ok (if b then 1 else 0)
  | PyVal.vFloat q => Except.ok q
  | PyVal.vStr s =>
    match pyFloatParse? s with
    | some q => Except.ok q
    | none => Except.error ("could not convert string to float: " ++ s)
  | PyVal.vNone => Except.error ("float() argument must not be None")

/-- Python `str(value)` (VARCHAR branch of `convert_value` and message
formatting).  The decimal rendering of a non-integral float is
approximated as `num/den`; no claim depends on it. -/
def pyStr : PyVal → String
  | PyVal.vInt n => toString n
  | PyVal.vBool b => if b then "True" else "False"
  | PyVal.vStr s => s
  | PyVal.vNone => "None"
  | PyVal.vFloat q =>
    if q.den = 1 then toString q.num ++ ".0"
    else toString q.num ++ "/" ++ toString q.den

/-- Python `bool(value)` over the stored kinds (BOOLEAN branch fallback
for non-bool, non-str input). -/
def pyTruthy : PyVal → Bool
  | PyVal.vInt n => decide (n ≠ 0)
  | PyVal.vFloat q => decide (q ≠ 0)
  | PyVal.vBool b => b
  | PyVal.vStr s => decide (s ≠ "")
  | PyVal.vNone => false

/-- Python `str.lower()` restricted to its ASCII action (identifiers and
keywords in this engine are ASCII; built structurally so closed
executions evaluate). -/
def pyLower (s : String) : String := String.mk (s.data.map Char.toLower)

/-- Python `str.upper()` restricted to its ASCII action. -/
def pyUpper (s : String) : String := String.mk (s.data.map Char.toUpper)

/-- Python `str.strip()` with no argument: remove leading and trailing
whitespace. -/
def pyStrip (s : String) : String :=
  String.mk (((s.data.dropWhile Char.isWhitespace).reverse.dropWhile
    Char.isWhitespace).reverse)

/-- Error kinds of `exceptions.py` plus the Python builtins the code can
raise (`ValueError`, `IndexError`) and the `NameError` produced when an
`except` clause names an identifier that was never imported. -/
inductive SqlErr where
  | parseError (msg : String)
  | validationError (msg : String)
  | tableNotFoundError (msg : String) (table_name : Option String)
  | columnNotFoundError (msg : String)
  | storageError (msg : String)
  | processingError (msg : String)
  | executionError (msg : String)
  | valueError (msg : String)
  | indexError (msg : String)
  | nameError (msg : String)
deriving DecidableEq, Repr

/-- Python `str(e)` on an exception: its message. -/
def SqlErr.message : SqlErr → String
  | SqlErr.parseError m => m
  | SqlErr.validationError m => m
  | SqlErr.tableNotFoundError m _ => m
  | SqlErr.columnNotFoundError m => m
  | SqlErr.storageError m => m
  | SqlErr.processingError m => m
  | SqlErr.executionError m => m
  | SqlErr.valueError m => m
  | SqlErr.indexError m => m
  | SqlErr.nameError m => m

/-- `Column.validate_value` (models/column.py, lines 33-49).  Note the
Python `isinstance` subtleties: `bool` is excluded from INT and FLOAT
explicitly, and only genuine `bool` satisfies BOOLEAN. -/
def Column.validate_value (c : Column) (value : PyVal) : Bool :=
  match value with
  | PyVal.vNone => c.nullable
  | _ =>
    match c.data_type with
    | DataType.INT =>
      match value with
      | PyVal.vInt _ => true
      | _ => false
    | DataType.FLOAT =>
      match value with
      | PyVal.vInt _ => true
      | PyVal.vFloat _ => true
      | _ => false
    | DataType.VARCHAR =>
      match value with
      | PyVal.vStr s => decide ((s.length : Int) ≤ pyOrDefault c.max_length 255)
      | _ => false
    | DataType.BOOLEAN =>
      match value with
      | PyVal.vBool _ => true
      | _ => false

/-- `Column.convert_value` (models/column.py, lines 51-79).  The Null
branch raises a bare `ValueError` outside the `try`; inside the `try`,
any `ValueError`/`TypeError` is re-raised as
`ValueError("Cannot convert value ... : ...")`. -/
def Column.convert_value (c : Column) (value : PyVal) : Except SqlErr PyVal :=
  match value with
  | PyVal.vNone =>
    if !c.nullable
    then Except.error (SqlErr.valueError ("Column " ++ c.name ++ " cannot be null"))
    else Except.ok PyVal.vNone
  | _ =>
    let wrap := fun (inner : String) =>
      SqlErr.valueError ("Cannot convert value " ++ pyStr value ++ " to " ++
        c.data_type.toStr ++ " for column " ++ c.name ++ ": " ++ inner)
    match c.data_type with
    | DataType.INT =>
      match value with
      | PyVal.vFloat q =>
        if q.den ≠ 1
        then Except.error (wrap ("Cannot convert non-integer float " ++
          pyStr value ++ " to INT"))
        else
          match pyToInt value with
          | Except.ok n => Except.ok (PyVal.vInt n)
          | Except.error e => Except.error (wrap e)
      | _ =>
        match pyToInt value with
        | Except.ok n => Except.ok (PyVal.vInt n)
        | Except.error e => Except.error (wrap e)
    | DataType.FLOAT =>
      match pyToFloat value with
      | Except.ok q => Except.ok (PyVal.vFloat q)
      | Except.error e => Except.error (wrap e)
    | DataType.VARCHAR =>
      let str_value := pyStr value
      if (str_value.length : Int) > pyOrDefault c.max_length 255
      then Except.error (wrap ("String too long for column " ++ c.name))
      else Except.ok (PyVal.vStr str_value)
    | DataType.BOOLEAN =>
      match value with
      | PyVal.vBool b => Except.ok (PyVal.vBool b)
      | PyVal.vStr s =>
        Except.ok (PyVal.vBool
          (pyLower s = "true" ∨ pyLower s = "1" ∨ pyLower s = "yes" ∨
            pyLower s = "on"))
      | _ => Except.ok (PyVal.vBool (pyTruthy value))

/-- `Schema` (models/schema.py): an ordered list of columns.  The
duplicate-name and non-emptiness checks live in `mkSchema`, mirroring
`Schema.__init__`; `__eq__` compares the column lists, which is
structural equality here. -/
structure Schema where
  columns : List Column
deriving DecidableEq, Repr

/-- `Schema.__init__` (models/schema.py, lines 13-24). -/
def mkSchema (columns : List Column) : Except String Schema :=
  if columns = [] then Except.error ("Schema must have at least one column")
  else if (columns.map (fun c => pyLower c.name)).Nodup
  then Except.ok (Schema.mk columns)
  else Except.error ("Duplicate column names are not allowed")

/-- `Schema.get_column_index` (models/schema.py, lines 37-42): the
name→index map is keyed by lower-cased name; absence raises a
`ValidationError` (note: not a ColumnNotFoundError). -/
def Schema.get_column_index (s : Schema) (name : String) : Except SqlErr Nat :=
  match s.columns.findIdx? (fun c => pyLower c.name = pyLower name) with
  | some i => Except.ok i
  | none =>
    Except.error (SqlErr.validationError
      ("Column '" ++ name ++ "' not found in schema"))

/-- Whether a name resolves in the schema (`name.lower()` is a key of
the name→index map). -/
def Schema.hasColumn (s : Schema) (name : String) : Bool :=
  (s.columns.findIdx? (fun c => pyLower c.name = pyLower name)).isSome

/-- `Schema.validate_row` (models/schema.py, lines 44-53). -/
def Schema.validate_row (s : Schema) (values : List PyVal) : Bool :=
  if values.length ≠ s.columns.length then false
  else (values.zip s.columns).all (fun p => p.2.validate_value p.1)

/-- Per-column conversion loop of `Schema.convert_row`. -/
def convertColumns : List (PyVal × Column) → Except SqlErr (List PyVal)
  | [] => Except.ok []
  | p :: rest =>
    match p.2.convert_value p.1 with
    | Except.error e => Except.error e
    | Except.ok v =>
      match convertColumns rest with
      | Except.error e => Except.error e
      | Except.ok vs => Except.ok (v :: vs)

/-- `Schema.convert_row` (models/schema.py, lines 55-64): arity check
("Expected N values, got M" as a ValidationError), then per-column
conversion. -/
def Schema.convert_row (s : Schema) (values : List PyVal) : Except SqlErr (List PyVal) :=
  if values.length ≠ s.columns.length then
    let n := toString s.columns.length
    let m := toString values.length
    Except.error (SqlErr.validationError
      ("Expected " ++ n ++ " values, got " ++ m))
  else convertColumns (values.zip s.columns)

/-- `Schema.validate_and_convert_row` (models/schema.py, lines 66-74):
convert, re-validate, and wrap any failure into a ValidationError
prefixed "Row validation failed: ". -/
def Schema.validate_and_convert_row (s : Schema) (values : List PyVal) :
    Except SqlErr (List PyVal) :=
  match s.convert_row values with
  | Except.error e =>
    Except.error (SqlErr.validationError ("Row validation failed: " ++ e.message))
  | Except.ok converted =>
    if !s.validate_row converted
    then Except.error (SqlErr.validationError
      ("Row validation failed: Row validation failed after conversion"))
    else Except.ok converted

/-- A column-description dictionary entry as produced by
`Schema.to_dict` (models/schema.py, lines 76-88): name, data_type
string, nullable flag, optional max_length. -/
structure ColumnDict where
  name : String
  data_type : String
  nullable : Bool
  max_length : Option Int
deriving DecidableEq, Repr

/-- `Schema.to_dict`: the list under the "columns" key. -/
def Schema.to_dict (s : Schema) : List ColumnDict :=
  s.columns.map (fun c =>
    ColumnDict.mk c.name c.data_type.toStr c.nullable c.max_length)

/-- One `Column(...)` reconstruction inside `Schema.from_dict`
(models/schema.py, lines 90-101), running `__post_init__`. -/
def columnFromDict (d : ColumnDict) : Except String Column :=
  mkColumn d.name d.data_type d.nullable d.max_length

/-- The reconstruction loop of `Schema.from_dict`. -/
def columnsFromDict : List ColumnDict → Except String (List Column)
  | [] => Except.ok []
  | d :: rest =>
    match columnFromDict d with
    | Except.error e => Except.error e
    | Except.ok c =>
      match columnsFromDict rest with
      | Except.error e => Except.error e
      | Except.ok cs => Except.ok (c :: cs)

/-- `Schema.from_dict`: rebuild the columns, then run
`Schema.__init__`. -/
def Schema.from_dict (ds : List ColumnDict) : Except String Schema :=
  match columnsFromDict ds with
  | Except.error e => Except.error e
  | Except.ok cols => mkSchema cols

/-- The constructor invariant holds for every field-wise valid column. -/
def Schema.Valid (s : Schema) : Prop :=
  s.columns ≠ [] ∧ (s.columns.map (fun c => pyLower c.name)).Nodup ∧
    ∀ c ∈ s.columns, c.Valid

/-- `Table` (models/table.py): name, schema, append-only row list,
row counter.  A Row is its value list (`Row.__init__` copies the list;
list values are immutable here). -/
structure Table where
  name : String
  schema : Schema
  rows : List (List PyVal)
  row_count : Nat
deriving DecidableEq, Repr

/-- `Table.insert` (models/table.py, lines 24-37): arity check with the
"Row has N values but table 'x' expects M columns" ValidationError, then
`validate_and_convert_row`; the row list and counter are only touched
after both succeed (the Python appends are the final two statements). -/
def tableInsert (t : Table) (values : List PyVal) : Except SqlErr Table :=
  if values.length ≠ t.schema.columns.length then
    let n := toString values.length
    let m := toString t.schema.columns.length
    Except.error (SqlErr.validationError
      ("Row has " ++ n ++ " values but table '" ++ t.name ++ "' expects " ++
        m ++ " columns"))
  else
    match t.schema.validate_and_convert_row values with
    | Except.error e => Except.error e
    | Except.ok validated =>
      Except.ok (Table.mk t.name t.schema (t.rows ++ [validated])
        (t.row_count + 1))

/-- `Table.scan` (models/table.py, lines 44-47): all rows in insertion
order. -/
def tableScan (t : Table) : List (List PyVal) := t.rows

/-- Repeated `Table.insert` calls, one per statement, in order. -/
def insertAll (t : Table) : List (List PyVal) → Except SqlErr Table
  | [] => Except.ok t
  | vs :: rest =>
    match tableInsert t vs with
    | Except.error e => Except.error e
    | Except.ok t' => insertAll t' rest

/-- `StorageManager` (storage_manager.py): the in-memory registry, a
dict keyed by lower-cased table name in insertion order (persistence is
outside this core). -/
structure Storage where
  tables : List (String × Table)
deriving DecidableEq, Repr

/-- Dict lookup `self.tables[lower]`. -/
def lookupTable (l : List (String × Table)) (key : String) : Option Table :=
  (l.find? (fun p => p.1 = key)).map (fun p => p.2)

/-- `", ".join(keys)`. -/
def joinComma : List String → String
  | [] => ""
  | [k] => k
  | k :: rest => k ++ ", " ++ joinComma rest

/-- `StorageManager.get_table` (storage_manager.py, lines 63-76):
empty/whitespace name is a ValidationError; a missing table is a
TableNotFoundError whose message lists the registered keys (or states
that none exist) and carries the requested name. -/
def getTable (st : Storage) (name : String) : Except SqlErr Table :=
  if name = "" ∨ pyStrip name = ""
  then Except.error (SqlErr.validationError ("Table name cannot be empty"))
  else
    match lookupTable st.tables (pyLower name) with
    | some t => Except.ok t
    | none =>
      match st.tables.map (fun p => p.1) with
      | [] => Except.error (SqlErr.tableNotFoundError
          ("Table '" ++ name ++ "' does not exist. No tables have been created yet")
          (some name))
      | keys => Except.error (SqlErr.tableNotFoundError
          ("Table '" ++ name ++ "' does not exist. Available tables: " ++
            joinComma keys)
          (some name))

/-- Python `str.isalnum()` on the name with "_" and "-" removed
(ASCII action; names here are ASCII). -/
def pyNameCharsetOk (name : String) : Bool :=
  let core := name.data.filter (fun ch => !(ch = '_' ∨ ch = '-'))
  !core.isEmpty && core.all Char.isAlphanum

/-- `StorageManager.create_table` (storage_manager.py, lines 30-53), in
source order: empty name, invalid charset, empty schema (note: Python's
`if not schema:` trips on a zero-column schema via `Schema.__len__`, so
the later "at least one column" branch is unreachable), duplicate key.
The registry is only extended after all checks pass. -/
def createTable (st : Storage) (name : String) (schema : Schema) :
    Except SqlErr Storage :=
  if name = "" ∨ pyStrip name = ""
  then Except.error (SqlErr.validationError ("Table name cannot be empty"))
  else if !pyNameCharsetOk name
  then Except.error (SqlErr.validationError
    ("Invalid table name: '" ++ name ++
      "'. Table names must contain only letters, numbers, underscores, and hyphens"))
  else if schema.columns.isEmpty
  then Except.error (SqlErr.validationError ("Schema cannot be None"))
  else if (st.tables.map (fun p => p.1)).contains (pyLower name)
  then Except.error (SqlErr.storageError ("Table '" ++ name ++ "' already exists"))
  else Except.ok (Storage.mk
    (st.tables ++ [(pyLower name, Table.mk name schema [] 0)]))

/-- Write an updated table object back at its key (Python mutates the
Table in place; the registry entry is unchanged). -/
def storageUpdate (st : Storage) (name : String) (t : Table) : Storage :=
  Storage.mk (st.tables.map (fun p =>
    if p.1 = pyLower name then (p.1, t) else p))

/-- Is this one of the two kinds `insert_values` re-raises as-is
(ValidationError, TableNotFoundError)? -/
def isValOrTnf : SqlErr → Bool
  | SqlErr.validationError _ => true
  | SqlErr.tableNotFoundError _ _ => true
  | _ => false

/-- `StorageManager.insert_values` (storage_manager.py, lines 91-103):
empty value list is a ValidationError; then get_table + Table.insert,
re-raising ValidationError/TableNotFoundError unchanged and wrapping
anything else into a StorageError. -/
def insertValuesSM (st : Storage) (table_name : String)
    (values : List PyVal) : Except SqlErr Storage :=
  if values = []
  then Except.error (SqlErr.validationError ("Cannot insert empty values"))
  else
    match getTable st table_name with
    | Except.error e =>
      Except.error (if isValOrTnf e then e
        else SqlErr.storageError ("Failed to insert values into table '" ++
          table_name ++ "': " ++ e.message))
    | Except.ok t =>
      match tableInsert t values with
      | Except.error e =>
        Except.error (if isValOrTnf e then e
          else SqlErr.storageError ("Failed to insert values into table '" ++
            table_name ++ "': " ++ e.message))
      | Except.ok t' => Except.ok (storageUpdate st table_name t')

/-- `StorageManager.scan_table` + `ScanOperation`'s `list(...)`:
the table's rows in insertion order. -/
def scanTable (st : Storage) (table_name : String) :
    Except SqlErr (List (List PyVal)) :=
  match getTable st table_name with
  | Except.error e => Except.error e
  | Except.ok t => Except.ok t.rows

/-- The primitive operations of an execution plan
(query_processor.py): create-table, insert, scan, project, filter
(a FilterOperation holds its WhereClause's column, operator and
literal). -/
inductive Operation where
  | createTableOp (table_name : String) (schema : Schema)
  | insertOp (table_name : String) (values : List PyVal)
  | scanOp (table_name : String)
  | projectOp (columns : List String)
  | filterOp (column : String) (operator : String) (value : PyVal)
deriving DecidableEq, Repr

def isScanOp : Operation → Bool
  | Operation.scanOp _ => true
  | _ => false

/-- Python list index access `row.values[i]` (IndexError when out of
range). -/
def pyListGet (l : List PyVal) (i : Nat) : Except SqlErr PyVal :=
  match l[i]? with
  | some v => Except.ok v
  | none => Except.error (SqlErr.indexError ("list index out of range"))

/-- The column-resolution loop of `ProjectOperation.execute`
(query_processor.py, lines 121-129): each name is resolved via
`Schema.get_column_index`, whose ValidationError is re-raised as a
ColumnNotFoundError naming the offending column and table. -/
def resolveIndices (sch : Schema) (cols : List String) (table_name : String) :
    Except SqlErr (List Nat) :=
  match cols with
  | [] => Except.ok []
  | c :: rest =>
    match sch.get_column_index c with
    | Except.error _ =>
      Except.error (SqlErr.columnNotFoundError
        ("Column '" ++ c ++ "' not found in table '" ++ table_name ++ "'"))
    | Except.ok i =>
      match resolveIndices sch rest table_name with
      | Except.error e => Except.error e
      | Except.ok is => Except.ok (i :: is)

/-- The projection loop of `ProjectOperation.execute` (lines 131-137). -/
def projectRows (idxs : List Nat) :
    List (List PyVal) → Except SqlErr (List (List PyVal))
  | [] => Except.ok []
  | r :: rest =>
    match idxs.foldr (fun i acc =>
      match acc with
      | Except.error e => Except.error e
      | Except.ok vs =>
        match pyListGet r i with
        | Except.error e => Except.error e
        | Except.ok v => Except.ok (v :: vs)) (Except.ok []) with
    | Except.error e => Except.error e
    | Except.ok vs =>
      match projectRows idxs rest with
      | Except.error e => Except.error e
      | Except.ok rs => Except.ok (vs :: rs)

/-- `ProjectOperation.execute` (query_processor.py, lines 102-137).
Note the source order: the empty-input early return comes BEFORE the
table lookup, the literal `["*"]` check and column resolution. -/
def projectExecute (st : Storage) (columns : List String)
    (input_rows : List (List PyVal)) (table_name : String) :
    Except SqlErr (List (List PyVal)) :=
  if input_rows = [] then Except.ok []
  else
    match getTable st table_name with
    | Except.error e => Except.error e
    | Except.ok t =>
      if columns = ["*"] then Except.ok input_rows
      else
        match resolveIndices t.schema columns table_name with
        | Except.error e => Except.error e
        | Except.ok idxs => projectRows idxs input_rows

/-- The row loop of `FilterOperation.execute` (lines 172-179). -/
def filterRows (operator : String) (value : PyVal) (idx : Nat) :
    List (List PyVal) → Except SqlErr (List (List PyVal))
  | [] => Except.ok []
  | r :: rest =>
    match pyListGet r idx with
    | Except.error e => Except.error e
    | Except.ok rv =>
      match filterRows operator value idx rest with
      | Except.error e => Except.error e
      | Except.ok rs =>
        Except.ok (if evaluate operator value rv then r :: rs else rs)

/-- `FilterOperation.execute` (query_processor.py, lines 150-179); the
empty-input early return again precedes the table lookup and column
resolution. -/
def filterExecute (st : Storage) (column operator : String) (value : PyVal)
    (input_rows : List (List PyVal)) (table_name : String) :
    Except SqlErr (List (List PyVal)) :=
  if input_rows = [] then Except.ok []
  else
    match getTable st table_name with
    | Except.error e => Except.error e
    | Except.ok t =>
      match t.schema.get_column_index column with
      | Except.error _ =>
        Except.error (SqlErr.columnNotFoundError
          ("Column '" ++ column ++ "' not found in table '" ++ table_name ++ "'"))
      | Except.ok idx => filterRows operator value idx input_rows

/-- The result of `Operation.execute` in the sequential branch: a status
string (create/insert) or a row list (scan). -/
inductive OpResult where
  | opMessage (m : String)
  | opRows (rs : List (List PyVal))
deriving DecidableEq, Repr

/-- `QueryResult` (execution_engine.py): column names, rows, optional
message. -/
structure QueryResult where
  columns : List String
  rows : List (List PyVal)
  message : Option String
deriving DecidableEq, Repr

/-- Python `repr` of a stored value as it appears inside
`str(list_of_rows)` (execution_engine.py line 263 applies `str` to a
non-str, non-Iterator operation result).  The repr of a non-integral
float and quote-escaping inside strings are approximated; no claim
depends on them. -/
def pyReprVal : PyVal → String
  | PyVal.vInt n => toString n
  | PyVal.vBool b => if b then "True" else "False"
  | PyVal.vNone => "None"
  | PyVal.vStr s => "'" ++ s ++ "'"
  | PyVal.vFloat q =>
    if q.den = 1 then toString q.num ++ ".0"
    else toString q.num ++ "/" ++ toString q.den

def joinCommaVals : List PyVal → String
  | [] => ""
  | [v] => pyReprVal v
  | v :: rest => pyReprVal v ++ ", " ++ joinCommaVals rest

/-- `repr(Row(values))` is "Row([...])" (models/row.py line 75). -/
def pyReprRow (r : List PyVal) : String :=
  "Row([" ++ joinCommaVals r ++ "])"

def joinCommaRows : List (List PyVal) → String
  | [] => ""
  | [r] => pyReprRow r
  | r :: rest => pyReprRow r ++ ", " ++ joinCommaRows rest

/-- Python `str` of a list of Row objects. -/
def pyStrRowList (rs : List (List PyVal)) : String :=
  "[" ++ joinCommaRows rs ++ "]"

/-- The corresponding message for `QueryProcessor.process`
(query_processor.py line 13 imports neither TableNotFoundError nor
ColumnNotFoundError, yet line 214 names them in an except clause). -/
def nameErrorMsgProc : String := "name 'TableNotFoundError' is not defined"

/-- `Operation.execute` as dispatched by the engine's sequential branch
(query_processor.py: CreateTableOperation lines 51-54, InsertOperation
lines 68-73, ScanOperation lines 86-89; Project/Filter called with no
`input_rows` raise a ValueError).  The returned Storage is the input
storage except at the single mutation point of each operation. -/
def opExecute (st : Storage) : Operation → Except SqlErr OpResult × Storage
  | Operation.createTableOp tn sch =>
    match createTable st tn sch with
    | Except.error e => (Except.error e, st)
    | Except.ok st' =>
      (Except.ok (OpResult.opMessage
        ("Table '" ++ tn ++ "' created successfully.")), st')
  | Operation.insertOp tn vs =>
    match getTable st tn with
    | Except.error e => (Except.error e, st)
    | Except.ok t =>
      match insertValuesSM st tn vs with
      | Except.error e => (Except.error e, st)
      | Except.ok st' =>
        (Except.ok (OpResult.opMessage
          ("1 row inserted into table '" ++ t.name ++ "'.")), st')
  | Operation.scanOp tn =>
    match scanTable st tn with
    | Except.error e => (Except.error e, st)
    | Except.ok rs => (Except.ok (OpResult.opRows rs), st)
  | Operation.projectOp _ =>
    (Except.error (SqlErr.valueError ("ProjectOperation requires input rows")), st)
  | Operation.filterOp _ _ _ =>
    (Except.error (SqlErr.valueError ("FilterOperation requires input rows")), st)

/-- `ExecutionEngine.execute_operation` (execution_engine.py,
lines 239-270): a string result becomes a message QueryResult; a list
result is NOT a `typing.Iterator`, so it falls into the `else` branch
and is stringified into a message; any exception makes the buggy
except clause raise the NameError. -/
def executeOperation (st : Storage) (op : Operation) :
    Except SqlErr QueryResult × Storage :=
  match opExecute st op with
  | (Except.ok (OpResult.opMessage m), st') =>
    (Except.ok (QueryResult.mk [] [] (some m)), st')
  | (Except.ok (OpResult.opRows rs), st') =>
    (Except.ok (QueryResult.mk [] [] (some (pyStrRowList rs))), st')
  | (Except.error _, st') =>
    (Except.error (SqlErr.nameError nameErrorMsgExec), st')

/-- The sequential loop of `ExecutionEngine.execute` (lines 227-231):
each operation's result replaces the previous one; the loop stops at the
first failure with the registry in its state at that point. -/
def execSeq (st : Storage) : List Operation → Except SqlErr QueryResult × Storage
  | [] => (Except.ok (QueryResult.mk [] [] (some "Operation completed successfully.")), st)
  | [op] => executeOperation st op
  | op :: op2 :: rest =>
    match executeOperation st op with
    | (Except.error e, st') => (Except.error e, st')
    | (Except.ok _, st') => execSeq st' (op2 :: rest)

/-- Line 223 of execution_engine.py: the SELECT-pipeline recognition
condition `len(operations) >= 2 and any(op is a ScanOperation)`. -/
def treatedAsSelect (ops : List Operation) : Bool :=
  decide (2 ≤ ops.length) && ops.any isScanOp

/-- The operation-discovery loop of `_execute_select_operations`
(lines 289-296): later operations of the same kind overwrite earlier
ones, so the LAST of each kind wins. -/
def lastScanTable (ops : List Operation) : Option String :=
  ops.foldl (fun acc op =>
    match op with
    | Operation.scanOp tn => some tn
    | _ => acc) none

def lastFilter (ops : List Operation) : Option (String × String × PyVal) :=
  ops.foldl (fun acc op =>
    match op with
    | Operation.filterOp c o v => some (c, o, v)
    | _ => acc) none

def lastProject (ops : List Operation) : Option (List String) :=
  ops.foldl (fun acc op =>
    match op with
    | Operation.projectOp cols => some cols
    | _ => acc) none

/-- The four error kinds line 324's except clause re-raises unchanged. -/
def isDomain4 : SqlErr → Bool
  | SqlErr.storageError _ => true
  | SqlErr.validationError _ => true
  | SqlErr.tableNotFoundError _ _ => true
  | SqlErr.columnNotFoundError _ => true
  | _ => false

/-- The body of `_execute_select_operations` (execution_engine.py,
lines 282-322) before its own except clauses. -/
def selectBody (st : Storage) (ops : List Operation) :
    Except SqlErr QueryResult :=
  match lastScanTable ops with
  | none => Except.error (SqlErr.executionError
      ("No ScanOperation found in SELECT query"))
  | some tn =>
    match lastProject ops with
    | none => Except.error (SqlErr.executionError
        ("No ProjectOperation found in SELECT query"))
    | some cols =>
      match scanTable st tn with
      | Except.error e => Except.error e
      | Except.ok rows =>
        match (match lastFilter ops with
               | none => Except.ok rows
               | some f => filterExecute st f.1 f.2.1 f.2.2 rows tn) with
        | Except.error e => Except.error e
        | Except.ok rows2 =>
          match projectExecute st cols rows2 tn with
          | Except.error e => Except.error e
          | Except.ok prows =>
            if cols = ["*"] then
              match getTable st tn with
              | Except.error e => Except.error e
              | Except.ok t =>
                Except.ok (QueryResult.mk
                  (t.schema.columns.map (fun c => c.name)) prows none)
            else Except.ok (QueryResult.mk cols prows none)

/-- `_execute_select_operations` with its except clauses (lines
324-328): the four domain kinds pass through unchanged, anything else is
wrapped into an ExecutionError with the original message. -/
def executeSelectOperations (st : Storage) (ops : List Operation) :
    Except SqlErr QueryResult :=
  match selectBody st ops with
  | Except.ok r => Except.ok r
  | Except.error e =>
    Except.error (if isDomain4 e then e
      else SqlErr.executionError
        ("Failed to execute SELECT operations: " ++ e.message))

/-- `ExecutionEngine.execute` (execution_engine.py, lines 200-237):
empty plans yield a message; the SELECT branch is taken iff
`treatedAsSelect`; every exception reaching line 233's except clause —
`except (StorageError, ValidationError, TableNotFoundError,
ColumnNotFoundError, ProcessingError)` with `ProcessingError` undefined
in this module — is replaced by a NameError, so NO error kind ever
propagates out of `execute` unchanged. -/
def engineExecute (st : Storage) (ops : List Operation) :
    Except SqlErr QueryResult × Storage :=
  if ops = []
  then (Except.ok (QueryResult.mk [] [] (some "No operations to execute.")), st)
  else if treatedAsSelect ops then
    match executeSelectOperations st ops with
    | Except.ok r => (Except.ok r, st)
    | Except.error _ => (Except.error (SqlErr.nameError nameErrorMsgExec), st)
  else
    match execSeq st ops with
    | (Except.ok r, st') => (Except.ok r, st')
    | (Except.error _, st') => (Except.error (SqlErr.nameError nameErrorMsgExec), st')

/-- The three AST node kinds (ast_nodes.py): CREATE TABLE, INSERT,
SELECT (with its optional WhereClause as column/operator/literal). -/
inductive ASTNode where
  | createTableNode (table_name : String) (columns : List Column)
  | insertNode (table_name : String) (values : List PyVal)
  | selectNode (table_name : String) (columns : List String)
      (where_clause : Option (String × String × PyVal))
deriving DecidableEq, Repr

/-- `QueryProcessor.visit_create_table` (query_processor.py, lines
221-250): re-checks the node invariants, builds the Schema (whose
ValueError for duplicate names is wrapped into a ProcessingError), and
emits a single CreateTableOperation. -/
def visitCreateTable (table_name : String) (columns : List Column) :
    Except SqlErr (List Operation) :=
  if table_name = ""
  then Except.error (SqlErr.processingError ("Table name cannot be empty"))
  else if columns = []
  then Except.error (SqlErr.processingError ("Table must have at least one column"))
  else
    match mkSchema columns with
    | Except.error e =>
      Except.error (SqlErr.processingError
        ("Failed to process CREATE TABLE for '" ++ table_name ++ "': " ++ e))
    | Except.ok sch => Except.ok [Operation.createTableOp table_name sch]

/-- `QueryProcessor.visit_insert` (lines 252-278): a single
InsertOperation. -/
def visitInsert (table_name : String) (values : List PyVal) :
    Except SqlErr (List Operation) :=
  if table_name = ""
  then Except.error (SqlErr.processingError ("Table name cannot be empty"))
  else if values = []
  then Except.error (SqlErr.processingError ("INSERT must have at least one value"))
  else Except.ok [Operation.insertOp table_name values]

/-- `QueryProcessor.visit_select` (lines 280-315): Scan, then Filter iff
a WHERE clause is present, then Project, in that fixed order. -/
def visitSelect (table_name : String) (columns : List String)
    (where_clause : Option (String × String × PyVal)) :
    Except SqlErr (List Operation) :=
  if table_name = ""
  then Except.error (SqlErr.processingError ("Table name cannot be empty"))
  else if columns = []
  then Except.error (SqlErr.processingError ("SELECT must specify at least one column"))
  else
    match where_clause with
    | none => Except.ok [Operation.scanOp table_name,
        Operation.projectOp columns]
    | some wc => Except.ok [Operation.scanOp table_name,
        Operation.filterOp wc.1 wc.2.1 wc.2.2,
        Operation.projectOp columns]

/-- `QueryProcessor.process` (query_processor.py, lines 196-219): the
visitor dispatch.  Its `except (ValidationError, TableNotFoundError,
ColumnNotFoundError)` clause names two identifiers the module never
imports, so ANY exception from a visit method is replaced by a
NameError while being handled. -/
def processAst : ASTNode → Except SqlErr (List Operation)
  | ASTNode.createTableNode tn cols =>
    match visitCreateTable tn cols with
    | Except.ok plan => Except.ok plan
    | Except.error _ => Except.error (SqlErr.nameError nameErrorMsgProc)
  | ASTNode.insertNode tn vs =>
    match visitInsert tn vs with
    | Except.ok plan => Except.ok plan
    | Except.error _ => Except.error (SqlErr.nameError nameErrorMsgProc)
  | ASTNode.selectNode tn cols wc =>
    match visitSelect tn cols wc with
    | Except.ok plan => Except.ok plan
    | Except.error _ => Except.error (SqlErr.nameError nameErrorMsgProc)

/-- One statement, from its AST through plan construction to execution
(`SQLEngine.execute_sql` minus the text parser, which never touches the
registry: `SQLParser` holds no storage reference). -/
def executeStatement (st : Storage) (ast : ASTNode) :
    Except SqlErr QueryResult × Storage :=
  match processAst ast with
  | Except.error e => (Except.error e, st)
  | Except.ok plan => engineExecute st plan

def joinSpace : List String → String
  | [] => ""
  | [t] => t
  | t :: rest => t ++ " " ++ joinSpace rest

/-- `SQLParser._parse_single_value` (parser.py, lines 315-351): NULL and
TRUE/FALSE keywords (any case), then a float literal if the token
contains '.', then an integer literal, falling back to a verbatim
string.  1e308 is modelled as 10^308 exactly and string number parsing
covers the plain sign-digits(-point) forms; the exotic accepted forms of
Python `int()`/`float()` (whitespace, underscores, exponents) are not
modelled — no claim depends on them. -/
def parseSingleValue (tokens : List String) : Except SqlErr PyVal :=
  match tokens with
  | [token] =>
    if pyUpper token = "NULL" then Except.ok PyVal.vNone
    else if pyUpper token = "TRUE" ∨ pyUpper token = "FALSE"
    then Except.ok (PyVal.vBool (pyUpper token = "TRUE"))
    else if token.data.contains '.' then
      match pyFloatParse? token with
      | some q =>
        if (10 : ℚ) ^ 308 < abs q
        then Except.error (SqlErr.parseError ("Float value too large: " ++ token))
        else Except.ok (PyVal.vFloat q)
      | none => Except.ok (PyVal.vStr token)
    else
      match pyIntParse? token with
      | some n =>
        if (2 : Int) ^ 63 - 1 < abs n
        then Except.error (SqlErr.parseError ("Integer value too large: " ++ token))
        else Except.ok (PyVal.vInt n)
      | none => Except.ok (PyVal.vStr token)
  | _ =>
    Except.error (SqlErr.parseError
      ("Invalid value: '" ++ joinSpace tokens ++ "'. Each value must be a single token"))

lemma isNone_eq_decide (v : PyVal) : isNone v = decide (v = PyVal.vNone) := by
  cases v <;> rfl

/-- C2: with a Null on either side, `=` is true iff both are Null,
`!=`/`<>` are true iff exactly one is Null, and the four ordering
operators are false. -/
theorem c2_null_comparisons (rv lit : PyVal)
    (h : rv = PyVal.vNone ∨ lit = PyVal.vNone) :
    evaluate "=" lit rv = (isNone rv && isNone lit) ∧
    evaluate "!=" lit rv = (isNone rv != isNone lit) ∧
    evaluate "<>" lit rv = (isNone rv != isNone lit) ∧
    evaluate ">" lit rv = false ∧
    evaluate "<" lit rv = false ∧
    evaluate ">=" lit rv = false ∧
    evaluate "<=" lit rv = false := by
  rcases h with h | h
  · subst h
    cases lit <;> simp [evaluate, isNone]
  · subst h
    cases rv <;> simp [evaluate, isNone]

/-- C2 witness at Null/Null and Null/0. -/
theorem c2_null_comparisons_witness :
    (evaluate "=" PyVal.vNone PyVal.vNone
        = (isNone PyVal.vNone && isNone PyVal.vNone) ∧
      evaluate "!=" PyVal.vNone PyVal.vNone
        = (isNone PyVal.vNone != isNone PyVal.vNone) ∧
      evaluate "<>" PyVal.vNone PyVal.vNone
        = (isNone PyVal.vNone != isNone PyVal.vNone) ∧
      evaluate ">" PyVal.vNone PyVal.vNone = false ∧
      evaluate "<" PyVal.vNone PyVal.vNone = false ∧
      evaluate ">=" PyVal.vNone PyVal.vNone = false ∧
      evaluate "<=" PyVal.vNone PyVal.vNone = false) ∧
    (evaluate ">" (PyVal.vInt 0) PyVal.vNone = false) :=
  ⟨c2_null_comparisons PyVal.vNone PyVal.vNone (Or.inl rfl),
    (c2_null_comparisons PyVal.vNone (PyVal.vInt 0) (Or.inl rfl)).2.2.2.1⟩

/-- C3 counterexample: comparing the string "a" against the integer 1
(both non-Null, incomparable types) under `!=` evaluates to TRUE, not
false as the claim states: Python `!=` between builtins of different
types succeeds and returns True. -/
theorem c3_counterexample :
    evaluate "!=" (PyVal.vInt 1) (PyVal.vStr "a") = true ∧
    PyVal.vStr "a" ≠ PyVal.vNone ∧ (PyVal.vInt 1 : PyVal) ≠ PyVal.vNone := by
  refine ⟨rfl, ?_, ?_⟩ <;> decide

/-- C3 amended: for non-Null operands of incomparable types (string vs
int/float/bool), `=` evaluates to false, `!=`/`<>` evaluate to true, and
the four ordering operators evaluate to false; no error is raised. -/
theorem c3_amended_mismatch (rv lit : PyVal) (h : mismatched rv lit = true) :
    evaluate "=" lit rv = false ∧
    evaluate "!=" lit rv = true ∧
    evaluate "<>" lit rv = true ∧
    evaluate ">" lit rv = false ∧
    evaluate "<" lit rv = false ∧
    evaluate ">=" lit rv = false ∧
    evaluate "<=" lit rv = false := by
  cases rv <;> cases lit <;>
    first
      | exact Bool.noConfusion h
      | exact ⟨rfl, rfl, rfl, rfl, rfl, rfl, rfl⟩

/-- C3 amended witness at row value "a", literal 1. -/
theorem c3_amended_mismatch_witness :
    evaluate "=" (PyVal.vInt 1) (PyVal.vStr "a") = false ∧
    evaluate "!=" (PyVal.vInt 1) (PyVal.vStr "a") = true ∧
    evaluate "<>" (PyVal.vInt 1) (PyVal.vStr "a") = true ∧
    evaluate ">" (PyVal.vInt 1) (PyVal.vStr "a") = false ∧
    evaluate "<" (PyVal.vInt 1) (PyVal.vStr "a") = false ∧
    evaluate ">=" (PyVal.vInt 1) (PyVal.vStr "a") = false ∧
    evaluate "<=" (PyVal.vInt 1) (PyVal.vStr "a") = false :=
  c3_amended_mismatch (PyVal.vStr "a") (PyVal.vInt 1) rfl

lemma columnFromDict_roundtrip (c : Column) (h : c.Valid) :
    columnFromDict (ColumnDict.mk c.name c.data_type.toStr c.nullable
      c.max_length) = Except.ok c := by
  obtain ⟨name, dt, nb, ml⟩ := c
  obtain ⟨hname, hpos, hvarchar⟩ := h
  simp only [Column.Valid] at hname hpos hvarchar
  unfold columnFromDict mkColumn
  have hof : DataType.ofStr? dt.toStr = some dt := by
    cases dt <;> rfl
  simp only [if_neg hname, hof]
  rcases ml with _ | m
  · have hdt : dt ≠ DataType.VARCHAR := fun hv => hvarchar hv rfl
    simp [hdt]
  · have hm : ¬ (m ≤ 0) := by
      have := hpos m rfl
      omega
    simp [hm]

lemma columnsFromDict_roundtrip (l : List Column) (h : ∀ c ∈ l, c.Valid) :
    columnsFromDict (l.map (fun c =>
      ColumnDict.mk c.name c.data_type.toStr c.nullable c.max_length))
      = Except.ok l := by
  induction l with
  | nil => rfl
  | cons c rest ih =>
    have hc := columnFromDict_roundtrip c (h c (List.mem_cons_self c rest))
    have hr := ih (fun x hx => h x (List.mem_cons_of_mem c hx))
    simp only [List.map_cons, columnsFromDict, hc, hr]

/-- C9: serializing a valid Schema to its description form and
rebuilding it through `Schema.from_dict` yields an equal Schema — same
column order, names, data types, nullability and max_length, since the
very column list is reconstructed. -/
theorem c9_schema_roundtrip (s : Schema) (h : s.Valid) :
    Schema.from_dict s.to_dict = Except.ok s := by
  obtain ⟨hne, hnodup, hcols⟩ := h
  unfold Schema.from_dict Schema.to_dict
  rw [columnsFromDict_roundtrip s.columns hcols]
  show mkSchema s.columns = Except.ok s
  unfold mkSchema
  rw [if_neg hne, if_pos hnodup]

/-- C9 witness on a two-column schema (INT and VARCHAR(50)). -/
theorem c9_schema_roundtrip_witness :
    Schema.from_dict (Schema.to_dict (Schema.mk
      [Column.mk "id" DataType.INT true none,
        Column.mk "name" DataType.VARCHAR true (some 50)]))
      = Except.ok (Schema.mk
        [Column.mk "id" DataType.INT true none,
          Column.mk "name" DataType.VARCHAR true (some 50)]) := by
  apply c9_schema_roundtrip
  refine ⟨by decide, by decide, ?_⟩
  intro c hc
  simp only [List.mem_cons, List.not_mem_nil, or_false] at hc
  rcases hc with hc | hc <;> subst hc
  · exact ⟨by decide, fun m hm => Option.noConfusion hm,
      fun hv => DataType.noConfusion hv⟩
  · exact ⟨by decide, fun m hm => by injection hm with hm; omega,
      fun _ hnone => Option.noConfusion hnone⟩

lemma validate_and_convert_row_length (s : Schema) (vs conv : List PyVal)
    (h : s.validate_and_convert_row vs = Except.ok conv) :
    vs.length = s.columns.length := by
  unfold Schema.validate_and_convert_row Schema.convert_row at h
  by_cases hlen : vs.length = s.columns.length
  · exact hlen
  · rw [if_pos hlen] at h
    exact Except.noConfusion h

lemma tableInsert_ok (t : Table) (vs conv : List PyVal)
    (h : t.schema.validate_and_convert_row vs = Except.ok conv) :
    tableInsert t vs = Except.ok (Table.mk t.name t.schema
      (t.rows ++ [conv]) (t.row_count + 1)) := by
  unfold tableInsert
  rw [if_neg (by simp [validate_and_convert_row_length t.schema vs conv h]), h]

lemma insertAll_ok (sch : Schema) (vss convs : List (List PyVal))
    (h : List.Forall₂
      (fun vs conv => sch.validate_and_convert_row vs = Except.ok conv)
      vss convs) :
    ∀ t : Table, t.schema = sch →
      insertAll t vss = Except.ok (Table.mk t.name sch
        (t.rows ++ convs) (t.row_count + convs.length)) := by
  induction h with
  | nil =>
    intro t ht
    cases t
    subst ht
    simp [insertAll]
  | cons hc htl ih =>
    intro t ht
    rename_i vs conv vss' convs'
    have hstep := tableInsert_ok t vs conv (by rw [ht]; exact hc)
    have hrec := ih (Table.mk t.name sch (t.rows ++ [conv]) (t.row_count + 1))
      rfl
    simp only [insertAll, hstep, ht] at hrec ⊢
    rw [hrec]
    simp [List.append_assoc]
    omega

/-- C7: inserting a sequence of valid value tuples (each accepted by the
per-column validate-and-convert rules of the table's schema) and then
scanning yields exactly the converted tuples appended after the existing
rows, in insertion (FIFO) order with no reordering across inserts. -/
theorem c7_insert_then_scan (t : Table) (vss convs : List (List PyVal))
    (h : List.Forall₂
      (fun vs conv => t.schema.validate_and_convert_row vs = Except.ok conv)
      vss convs) :
    insertAll t vss = Except.ok (Table.mk t.name t.schema
      (t.rows ++ convs) (t.row_count + convs.length)) ∧
    ∀ t', insertAll t vss = Except.ok t' → tableScan t' = t.rows ++ convs := by
  have hmain := insertAll_ok t.schema vss convs h t rfl
  refine ⟨hmain, ?_⟩
  intro t' ht'
  rw [hmain] at ht'
  injection ht' with ht'
  rw [← ht']
  rfl

/-- C7 witness: inserting (1) then (2) into an empty one-INT-column
table yields rows [1], [2] in that order. -/
theorem c7_insert_then_scan_witness :
    insertAll (Table.mk "t" (Schema.mk [Column.mk "n" DataType.INT true none])
        [] 0) [[PyVal.vInt 1], [PyVal.vInt 2]]
      = Except.ok (Table.mk "t"
        (Schema.mk [Column.mk "n" DataType.INT true none])
        ([] ++ [[PyVal.vInt 1], [PyVal.vInt 2]]) (0 + 2)) :=
  (c7_insert_then_scan
    (Table.mk "t" (Schema.mk [Column.mk "n" DataType.INT true none]) [] 0)
    [[PyVal.vInt 1], [PyVal.vInt 2]] [[PyVal.vInt 1], [PyVal.vInt 2]]
    (List.Forall₂.cons (by rfl)
      (List.Forall₂.cons (by rfl) List.Forall₂.nil))).1

/-- C4 evidence: `Table.insert` of a single value into the 3-column
`users` table raises a ValidationError whose message is
"Row has 1 values but table 'users' expects 3 columns" — it does state
expected vs. actual counts, but does not contain the wording
"Expected 3 values" asserted by the spec scenario and by the repo's own
test-suite (tests/test_error_handling.py asserts "Expected N values" on
this very path). -/
theorem c4_arity_message :
    tableInsert (Table.mk "users" (Schema.mk
        [Column.mk "id" DataType.INT true none,
          Column.mk "name" DataType.VARCHAR true (some 50),
          Column.mk "age" DataType.INT true none]) [] 0)
      [PyVal.vInt 1]
      = Except.error (SqlErr.validationError
        ("Row has 1 values but table 'users' expects 3 columns")) ∧
    ¬ (("Expected 3 values").toList <:+:
        ("Row has 1 values but table 'users' expects 3 columns").toList) := by
  constructor
  · rfl
  · decide

/-- C1 evidence: executing the plan of `SELECT * FROM ghost` against an
empty registry does NOT propagate the TableNotFoundError out of
`ExecutionEngine.execute`: the storage layer raises a
TableNotFoundError naming "ghost" (second conjunct), but the engine's
`except` clause references the never-imported `ProcessingError` and so
replaces every error — domain kinds included — with a NameError (first
conjunct), contradicting the code's own "re-raise as-is" comments and
the repo test expecting a TableNotFoundError end to end. -/
theorem c1_ghost_select_nameerror :
    executeStatement (Storage.mk []) (ASTNode.selectNode "ghost" ["*"] none)
      = (Except.error (SqlErr.nameError nameErrorMsgExec), Storage.mk []) ∧
    getTable (Storage.mk []) "ghost"
      = Except.error (SqlErr.tableNotFoundError
        ("Table 'ghost' does not exist. No tables have been created yet")
        (some "ghost")) := by
  constructor <;> rfl

/-- C10: a boolean inserted into an INT column is accepted, converted to
the integer 1 (true) or 0 (false), and passes post-conversion
validation; the parser maps the token TRUE to the boolean true, and the
resulting INSERT appends the row [1]. -/
theorem c10_bool_into_int (c : Column) (h : c.data_type = DataType.INT) :
    parseSingleValue ["TRUE"] = Except.ok (PyVal.vBool true) ∧
    c.convert_value (PyVal.vBool true) = Except.ok (PyVal.vInt 1) ∧
    c.convert_value (PyVal.vBool false) = Except.ok (PyVal.vInt 0) ∧
    c.validate_value (PyVal.vInt 1) = true ∧
    tableInsert (Table.mk "t" (Schema.mk [c]) [] 0) [PyVal.vBool true]
      = Except.ok (Table.mk "t" (Schema.mk [c]) [[PyVal.vInt 1]] 1) := by
  obtain ⟨name, dt, nb, ml⟩ := c
  simp only at h
  subst h
  exact ⟨rfl, rfl, rfl, rfl, rfl⟩

/-- C10 witness on a concrete INT column. -/
theorem c10_bool_into_int_witness :
    parseSingleValue ["TRUE"] = Except.ok (PyVal.vBool true) ∧
    (Column.mk "n" DataType.INT true none).convert_value (PyVal.vBool true)
      = Except.ok (PyVal.vInt 1) ∧
    (Column.mk "n" DataType.INT true none).convert_value (PyVal.vBool false)
      = Except.ok (PyVal.vInt 0) ∧
    (Column.mk "n" DataType.INT true none).validate_value (PyVal.vInt 1) = true ∧
    tableInsert (Table.mk "t" (Schema.mk [Column.mk "n" DataType.INT true none])
        [] 0) [PyVal.vBool true]
      = Except.ok (Table.mk "t"
        (Schema.mk [Column.mk "n" DataType.INT true none]) [[PyVal.vInt 1]] 1) :=
  c10_bool_into_int (Column.mk "n" DataType.INT true none) rfl

/-- C5 counterexample: ProjectOperation over the EMPTY input row
sequence, against an existing table "t" whose schema has no column
"bad", with a non-"*" column list — the source's empty-input early
return fires before any column resolution, so the result is `ok []`
instead of the ColumnNotFoundError the claim requires for every input
sequence including the empty one. -/
theorem c5_counterexample :
    projectExecute (Storage.mk [("t", Table.mk "t"
        (Schema.mk [Column.mk "a" DataType.INT true none]) [] 0)])
      ["bad"] [] "t" = Except.ok [] ∧
    getTable (Storage.mk [("t", Table.mk "t"
        (Schema.mk [Column.mk "a" DataType.INT true none]) [] 0)]) "t"
      = Except.ok (Table.mk "t"
        (Schema.mk [Column.mk "a" DataType.INT true none]) [] 0) ∧
    (Schema.mk [Column.mk "a" DataType.INT true none]).hasColumn "bad" = false ∧
    ["bad"] ≠ ["*"] := by
  refine ⟨rfl, rfl, rfl, ?_⟩
  decide

lemma resolveIndices_first_missing (sch : Schema) (table_name : String) :
    ∀ (cols : List String) (c : String),
      cols.find? (fun x => !sch.hasColumn x) = some c →
      resolveIndices sch cols table_name
        = Except.error (SqlErr.columnNotFoundError
          ("Column '" ++ c ++ "' not found in table '" ++ table_name ++ "'")) := by
  intro cols
  induction cols with
  | nil =>
    intro c hc
    simp [List.find?] at hc
  | cons x rest ih =>
    intro c hc
    rcases hfind : sch.columns.findIdx? (fun col => pyLower col.name = pyLower x)
      with _ | i
    · have hx : (!sch.hasColumn x) = true := by
        simp [Schema.hasColumn, hfind]
      simp only [List.find?, hx] at hc
      injection hc with hc
      subst hc
      simp [resolveIndices, Schema.get_column_index, hfind]
    · have hx : (!sch.hasColumn x) = false := by
        simp [Schema.hasColumn, hfind]
      simp only [List.find?, hx] at hc
      simp only [resolveIndices, Schema.get_column_index, hfind]
      rw [ih c hc]

/-- C5 amended: for every NON-EMPTY input row sequence against an
existing table, a non-"*" column list containing a name absent from the
table's schema makes ProjectOperation fail with a ColumnNotFoundError
naming the first such column; with an empty input row sequence the
operation instead returns the empty row list without any error (the
empty-input early return precedes column resolution in the source). -/
theorem c5_amended_project_column_error (st : Storage) (table_name : String)
    (t : Table) (cols : List String) (rows : List (List PyVal)) (c : String)
    (ht : getTable st table_name = Except.ok t)
    (hrows : rows ≠ [])
    (hstar : cols ≠ ["*"])
    (hc : cols.find? (fun x => !t.schema.hasColumn x) = some c) :
    projectExecute st cols rows table_name
      = Except.error (SqlErr.columnNotFoundError
        ("Column '" ++ c ++ "' not found in table '" ++ table_name ++ "'")) ∧
    projectExecute st cols [] table_name = Except.ok [] := by
  constructor
  · unfold projectExecute
    rw [if_neg hrows, ht]
    simp only [if_neg hstar]
    rw [resolveIndices_first_missing t.schema table_name cols c hc]
  · rfl

/-- C5 amended witness: projecting ["bad"] over one row of table "t"
fails with the ColumnNotFoundError naming "bad"; over the empty
sequence it returns []. -/
theorem c5_amended_project_column_error_witness :
    projectExecute (Storage.mk [("t", Table.mk "t"
        (Schema.mk [Column.mk "a" DataType.INT true none]) [[PyVal.vInt 7]] 1)])
      ["bad"] [[PyVal.vInt 7]] "t"
      = Except.error (SqlErr.columnNotFoundError
        ("Column '" ++ "bad" ++ "' not found in table '" ++ "t" ++ "'")) ∧
    projectExecute (Storage.mk [("t", Table.mk "t"
        (Schema.mk [Column.mk "a" DataType.INT true none]) [[PyVal.vInt 7]] 1)])
      ["bad"] [] "t" = Except.ok [] :=
  c5_amended_project_column_error
    (Storage.mk [("t", Table.mk "t"
      (Schema.mk [Column.mk "a" DataType.INT true none]) [[PyVal.vInt 7]] 1)])
    "t" (Table.mk "t" (Schema.mk [Column.mk "a" DataType.INT true none])
      [[PyVal.vInt 7]] 1)
    ["bad"] [[PyVal.vInt 7]] "bad" rfl (by decide) (by decide) rfl

/-- C6 counterexample: the single-operation plan [Scan "t"] contains a
ScanOperation yet is NOT treated as a SELECT pipeline — line 223 of
execution_engine.py additionally requires at least two operations.
Executed against an existing empty table "t", the engine takes the
sequential branch and returns a MESSAGE result (the stringified row
list "[]"), not a SELECT data result. -/
theorem c6_counterexample :
    treatedAsSelect [Operation.scanOp "t"] = false ∧
    [Operation.scanOp "t"].any isScanOp = true ∧
    engineExecute (Storage.mk [("t", Table.mk "t"
        (Schema.mk [Column.mk "a" DataType.INT true none]) [] 0)])
      [Operation.scanOp "t"]
      = (Except.ok (QueryResult.mk [] [] (some ("[]"))),
        Storage.mk [("t", Table.mk "t"
          (Schema.mk [Column.mk "a" DataType.INT true none]) [] 0)]) := by
  exact ⟨rfl, rfl, rfl⟩

/-- C6 amended: a plan is treated as a SELECT pipeline iff it contains a
ScanOperation AND has at least two operations; in that case the engine
runs the scan/filter/project pipeline (leaving the registry untouched),
otherwise a non-empty plan is executed sequentially. -/
theorem c6_amended_recognition (st : Storage) (ops : List Operation)
    (hne : ops ≠ []) :
    (treatedAsSelect ops = true ↔ (2 ≤ ops.length ∧ ops.any isScanOp = true)) ∧
    (treatedAsSelect ops = true →
      engineExecute st ops
        = (match executeSelectOperations st ops with
           | Except.ok r => (Except.ok r, st)
           | Except.error _ =>
             (Except.error (SqlErr.nameError nameErrorMsgExec), st))) ∧
    (treatedAsSelect ops = false →
      engineExecute st ops
        = (match execSeq st ops with
           | (Except.ok r, st') => (Except.ok r, st')
           | (Except.error _, st') =>
             (Except.error (SqlErr.nameError nameErrorMsgExec), st'))) := by
  refine ⟨?_, ?_, ?_⟩
  · simp [treatedAsSelect]
  · intro h
    unfold engineExecute
    rw [if_neg hne, if_pos h]
  · intro h
    unfold engineExecute
    rw [if_neg hne, if_neg (by simp [h])]

/-- C6 amended witness on the two-operation ghost plan. -/
theorem c6_amended_recognition_witness :
    (treatedAsSelect [Operation.scanOp "ghost", Operation.projectOp ["*"]] = true
      ↔ (2 ≤ ([Operation.scanOp "ghost", Operation.projectOp ["*"]] :
          List Operation).length ∧
        ([Operation.scanOp "ghost", Operation.projectOp ["*"]] :
          List Operation).any isScanOp = true)) ∧
    (treatedAsSelect [Operation.scanOp "ghost", Operation.projectOp ["*"]] = true →
      engineExecute (Storage.mk [])
          [Operation.scanOp "ghost", Operation.projectOp ["*"]]
        = (match executeSelectOperations (Storage.mk [])
              [Operation.scanOp "ghost", Operation.projectOp ["*"]] with
           | Except.ok r => (Except.ok r, Storage.mk [])
           | Except.error _ =>
             (Except.error (SqlErr.nameError nameErrorMsgExec), Storage.mk []))) ∧
    (treatedAsSelect [Operation.scanOp "ghost", Operation.projectOp ["*"]] = false →
      engineExecute (Storage.mk [])
          [Operation.scanOp "ghost", Operation.projectOp ["*"]]
        = (match execSeq (Storage.mk [])
              [Operation.scanOp "ghost", Operation.projectOp ["*"]] with
           | (Except.ok r, st') => (Except.ok r, st')
           | (Except.error _, st') =>
             (Except.error (SqlErr.nameError nameErrorMsgExec), st'))) :=
  c6_amended_recognition (Storage.mk [])
    [Operation.scanOp "ghost", Operation.projectOp ["*"]] (by decide)

lemma opExecute_error_storage (st : Storage) (op : Operation) (e : SqlErr)
    (h : (opExecute st op).1 = Except.error e) : (opExecute st op).2 = st := by
  cases op with
  | createTableOp tn sch =>
    rcases hc : createTable st tn sch with e' | st' <;>
      simp [opExecute, hc] at h ⊢
  | insertOp tn vs =>
    rcases hg : getTable st tn with e' | t
    · simp [opExecute, hg]
    · rcases hi : insertValuesSM st tn vs with e' | st' <;>
        simp [opExecute, hg, hi] at h ⊢
  | scanOp tn =>
    rcases hs : scanTable st tn with e' | rs <;>
      simp [opExecute, hs] at h ⊢
  | projectOp cols => rfl
  | filterOp c o v => rfl

lemma executeOperation_error_storage (st : Storage) (op : Operation) (e : SqlErr)
    (h : (executeOperation st op).1 = Except.error e) :
    (executeOperation st op).2 = st := by
  rcases hx : opExecute st op with ⟨r, st''⟩
  rcases r with e' | r
  · have h2 : (opExecute st op).1 = Except.error e' := by rw [hx]
    have h3 := opExecute_error_storage st op e' h2
    rw [hx] at h3
    unfold executeOperation
    rw [hx]
    simpa using h3
  · rcases r with m | rs <;>
      (unfold executeOperation at h; rw [hx] at h; simp at h)

lemma engineExecute_select_branch_storage (st : Storage) (ops : List Operation)
    (hne : ops ≠ []) (hsel : treatedAsSelect ops = true) :
    (engineExecute st ops).2 = st := by
  unfold engineExecute
  rw [if_neg hne, if_pos hsel]
  rcases executeSelectOperations st ops with e | r <;> rfl

lemma engineExecute_single_error_storage (st : Storage) (op : Operation)
    (e : SqlErr) (h : (engineExecute st [op]).1 = Except.error e) :
    (engineExecute st [op]).2 = st := by
  have h1 : ([op] : List Operation) ≠ [] := by simp
  have h2 : ¬ (treatedAsSelect [op] = true) := by simp [treatedAsSelect]
  unfold engineExecute at h ⊢
  rw [if_neg h1, if_neg h2] at h ⊢
  show (match execSeq st [op] with
    | (Except.ok r, st') => (Except.ok r, st')
    | (Except.error _, st') =>
      (Except.error (SqlErr.nameError nameErrorMsgExec), st')).2 = st
  have hseq : execSeq st [op] = executeOperation st op := rfl
  rw [hseq] at h ⊢
  rcases hE : executeOperation st op with ⟨r, st'⟩
  rcases r with e' | r
  · have h3 : (executeOperation st op).1 = Except.error e' := by rw [hE]
    have h4 := executeOperation_error_storage st op e' h3
    rw [hE] at h4
    simpa using h4
  · rw [hE] at h
    simp at h

/-- C8: a statement that fails at plan construction never touches the
registry (the processor holds no storage reference), and a statement
whose execution fails leaves the registry exactly as it was: CREATE
TABLE only registers after all its checks pass, INSERT only appends a
row after arity and per-column validation succeed, and the SELECT
pipeline never mutates the registry at all. -/
theorem c8_storage_unchanged_on_failure (st : Storage) (ast : ASTNode)
    (e : SqlErr) (h : (executeStatement st ast).1 = Except.error e) :
    (executeStatement st ast).2 = st := by
  cases ast with
  | createTableNode tn cols =>
    rcases hv : visitCreateTable tn cols with e2 | p
    · simp [executeStatement, processAst, hv]
    · simp only [executeStatement, processAst, hv] at h ⊢
      unfold visitCreateTable at hv
      split at hv
      · exact Except.noConfusion hv
      · split at hv
        · exact Except.noConfusion hv
        · rcases hs : mkSchema cols with e3 | sch <;> rw [hs] at hv
          · exact Except.noConfusion hv
          · injection hv with hv
            subst hv
            exact engineExecute_single_error_storage st _ e h
  | insertNode tn vs =>
    rcases hv : visitInsert tn vs with e2 | p
    · simp [executeStatement, processAst, hv]
    · simp only [executeStatement, processAst, hv] at h ⊢
      unfold visitInsert at hv
      split at hv
      · exact Except.noConfusion hv
      · split at hv
        · exact Except.noConfusion hv
        · injection hv with hv
          subst hv
          exact engineExecute_single_error_storage st _ e h
  | selectNode tn cols wc =>
    rcases hv : visitSelect tn cols wc with e2 | p
    · simp [executeStatement, processAst, hv]
    · simp only [executeStatement, processAst, hv] at h ⊢
      unfold visitSelect at hv
      split at hv
      · exact Except.noConfusion hv
      · split at hv
        · exact Except.noConfusion hv
        · rcases wc with _ | f <;> simp only [] at hv <;>
            (injection hv with hv; subst hv) <;>
            exact engineExecute_select_branch_storage st _ (by simp)
              (by simp [treatedAsSelect, isScanOp])

/-- C8 witness: the failing `SELECT * FROM ghost` statement leaves the
empty registry empty. -/
theorem c8_storage_unchanged_on_failure_witness :
    (executeStatement (Storage.mk []) (ASTNode.selectNode "ghost" ["*"] none)).1
      = Except.error (SqlErr.nameError nameErrorMsgExec) ∧
    (executeStatement (Storage.mk []) (ASTNode.selectNode "ghost" ["*"] none)).2
      = Storage.mk [] :=
  ⟨rfl, c8_storage_unchanged_on_failure (Storage.mk [])
    (ASTNode.selectNode "ghost" ["*"] none)
    (SqlErr.nameError nameErrorMsgExec) rfl⟩
